import Mathlib

/-!
Shallow embedding of `src/prediction/predictor_model.py` from the
`rt_mc_class_catboost` repository: a `Classifier` wrapper around the
third-party CatBoost multiclass classifier, with free-function wrappers
for training, prediction, persistence and evaluation.

Python scalars are embedded as `Rat` (floats) and `Int` (ints); a raised
Python exception is an `Except.error` carrying the exception kind; the
mutation performed by `fit` is explicit state passing; the filesystem
touched by `save`/`load` is an explicit record of existing directories
and stored files.
-/

namespace RTCatboost

/-- A row of the tabular feature matrix (`pandas` data frame row). -/
abbrev Row := List Rat

/-- Tabular feature matrix (`pandas.DataFrame`). -/
abbrev DataFrame := List Row

/-- Label vector (`pandas.Series`). -/
abbrev Series := List Int

/-- The Python exception kinds this module can raise or propagate:
`sklearn.exceptions.NotFittedError` (raised explicitly by `evaluate` and
`save`), `AttributeError` (attribute access on `None`), `CatBoostError`
(propagated from the underlying library), `FileNotFoundError`
(propagated from `joblib` I/O). -/
inductive PyError where
  | notFittedError (msg : String)
  | attributeError (msg : String)
  | catboostError (msg : String)
  | fileNotFoundError (msg : String)
deriving DecidableEq

/-- Equality of call outcomes (raised exception or returned value) is
decidable when both components are. -/
instance {ε α : Type} [DecidableEq ε] [DecidableEq α] : DecidableEq (Except ε α) := fun a b =>
  match a, b with
  | .ok x, .ok y =>
    if h : x = y then .isTrue (congrArg Except.ok h)
    else .isFalse fun hh => h (Except.ok.inj hh)
  | .error x, .error y =>
    if h : x = y then .isTrue (congrArg Except.error h)
    else .isFalse fun hh => h (Except.error.inj hh)
  | .ok _, .error _ => .isFalse fun hh => Except.noConfusion hh
  | .error _, .ok _ => .isFalse fun hh => Except.noConfusion hh

/-- Holds (as `true`) exactly when the call raised (any exception kind). -/
def isErr {α : Type} : Except PyError α → Bool
  | .error _ => true
  | .ok _ => false

/-- Holds (as `true`) exactly when the call raised the `NotFittedError` kind. -/
def isNotFittedRes {α : Type} : Except PyError α → Bool
  | .error (.notFittedError _) => true
  | _ => false

/-- Constructor arguments passed to `catboost.CatBoostClassifier` in
`Classifier.fit` (source lines 63-70). -/
structure CBParams where
  loss_function : String
  learning_rate : Rat
  iterations : Int
  depth : Int
  l2_leaf_reg : Rat
  train_dir : String
deriving DecidableEq

/-- Modelled from the spec: the underlying CatBoost model object is an
opaque, trusted external component ("the underlying tree-boosting
algorithm itself [is] treated as an opaque, trusted external
component"). It is either freshly constructed (unfitted) or fitted; a
fitted model remembers the distinct labels seen at training and the
training data that determine its (deterministic) predictions. -/
inductive CBModel where
  | unfitted (params : CBParams)
  | fitted (params : CBParams) (classes : List Int) (trainX : DataFrame) (trainY : Series)
deriving DecidableEq

/-- Modelled from the spec: a deterministic per-class raw score of the
opaque fitted model on one input row. Its exact value is irrelevant to
every claim; only determinism and the induced positive class weights
matter. -/
def cbRawScore (row : Row) (cls : Int) : Rat :=
  row.sum + (cls : Rat)

/-- Modelled from the spec: the positive per-class weight the fitted
model assigns to a class on one input row (any value `≥ 1`). -/
def cbWeight (row : Row) (cls : Int) : Rat :=
  1 + (cbRawScore row cls) ^ 2

/-- Modelled from the spec: the label the fitted model predicts for one
row — the class (among the distinct training labels) of maximal weight,
first such class on ties. -/
def cbPredictRow (classes : List Int) (row : Row) : Int :=
  match classes with
  | [] => 0
  | c :: cs => cs.foldl (fun best cc => if cbWeight row best < cbWeight row cc then cc else best) c

/-- Modelled from the spec: the per-class probability row of the fitted
model — the class weights normalized to sum to one. -/
def cbProbaRow (classes : List Int) (row : Row) : List Rat :=
  let ws := classes.map (cbWeight row)
  ws.map (fun w => w / ws.sum)

/-- Modelled from the spec: `CatBoostClassifier.fit`. Training either
fully succeeds — producing a fitted model whose classes are the distinct
labels seen at training — or raises a `CatBoostError` (it does so on
empty or shape-mismatched training data). -/
def CBModel.fitCB (m : CBModel) (trainX : DataFrame) (trainY : Series) : Except PyError CBModel :=
  let p := match m with
    | .unfitted p => p
    | .fitted p _ _ _ => p
  if trainX.length = trainY.length ∧ trainY ≠ [] then
    .ok (.fitted p trainY.dedup trainX trainY)
  else
    .error (.catboostError "Invalid training data")

/-- Modelled from the spec: `CatBoostClassifier.predict` — predicted
class labels on a fitted model; a `CatBoostError` (not the sklearn
`NotFittedError`) on an unfitted model. -/
def CBModel.cbPredict (m : CBModel) (data : DataFrame) : Except PyError (List Int) :=
  match m with
  | .unfitted _ => .error (.catboostError "There is no trained model to use predict()")
  | .fitted _ classes _ _ => .ok (data.map (cbPredictRow classes))

/-- Modelled from the spec: `CatBoostClassifier.predict_proba` — the
per-class probability matrix, one column per distinct training label. -/
def CBModel.cbPredictProba (m : CBModel) (data : DataFrame) : Except PyError (List (List Rat)) :=
  match m with
  | .unfitted _ => .error (.catboostError "There is no trained model to use predict_proba()")
  | .fitted _ classes _ _ => .ok (data.map (cbProbaRow classes))

/-- Modelled from the spec: `CatBoostClassifier.score` — accuracy
(fraction of test rows where predicted label equals true label) on a
fitted model; a `CatBoostError` on an unfitted model or mismatched
shapes. -/
def CBModel.cbScore (m : CBModel) (testX : DataFrame) (testY : Series) : Except PyError Rat :=
  match m with
  | .unfitted _ => .error (.catboostError "There is no trained model to use score()")
  | .fitted _ classes _ _ =>
    if testX.length = testY.length then
      .ok ((((testX.map (cbPredictRow classes)).zip testY).countP (fun pr => pr.1 == pr.2) : Rat)
            / (testY.length : Rat))
    else
      .error (.catboostError "Data shape mismatch")

/-- Source line 15: `PREDICTOR_FILE_NAME = "predictor.joblib"`. -/
def PREDICTOR_FILE_NAME : String := "predictor.joblib"

/-- The `Classifier` wrapper (source lines 18-137): the four stored
hyperparameters, the internal model handle (`self.model`, `None` until
`fit` assigns it), and the trained flag (`self._is_trained`). -/
structure Classifier where
  learning_rate : Rat
  iterations : Int
  depth : Int
  l2_leaf_reg : Rat
  model : Option CBModel
  _is_trained : Bool
deriving DecidableEq

/-- Source line 25: `Classifier.model_name = "Catboost Classifier"`. -/
def Classifier.model_name : String := "Catboost Classifier"

/-- The filesystem visible to `save`/`load`: the set of existing
directories and the objects stored at `(directory, filename)` paths. -/
structure FileSystem where
  dirs : List String
  files : List ((String × String) × Classifier)
deriving DecidableEq

/-- Embeds `os.path.join(dir, filename)`, kept as the explicit
(directory, filename) pair. -/
def osPathJoin (d f : String) : String × String := (d, f)

/-- Modelled from the spec: `joblib.dump(obj, path)` serializes the
entire instance to the file at `path` ("serialized as a single opaque
blob"); it raises `FileNotFoundError` when the directory does not
exist. -/
def joblibDump (fs : FileSystem) (p : String × String) (obj : Classifier) :
    Except PyError FileSystem :=
  if fs.dirs.contains p.1 then
    .ok { fs with files := (p, obj) :: fs.files }
  else
    .error (.fileNotFoundError "No such file or directory")

/-- Modelled from the spec: `joblib.load(path)` deserializes the object
stored at `path` ("compatibility requires using the same serialization
mechanism to load as was used to save"); a `joblib` round trip yields an
equal instance. -/
def joblibLoad (fs : FileSystem) (p : String × String) : Except PyError Classifier :=
  match fs.files.lookup p with
  | some c => .ok c
  | none => .error (.fileNotFoundError "No such file or directory")

/-- Embeds `Classifier.__init__` (source lines 27-53): stores the four
hyperparameters (the `float`/`int` conversions are the identity on the
annotated argument types), sets `self.model = None` and
`self._is_trained = False`. Extra `**kwargs` are discarded. -/
def Classifier.construct (learning_rate : Rat) (iterations : Int) (depth : Int)
    (l2_leaf_reg : Rat) : Classifier :=
  { learning_rate := learning_rate
    iterations := iterations
    depth := depth
    l2_leaf_reg := l2_leaf_reg
    model := none
    _is_trained := false }

/-- The `CatBoostClassifier(...)` argument record built inside
`Classifier.fit` (source lines 63-70); `train_dir` is the scoped
temporary directory. -/
def Classifier.mkCBParams (c : Classifier) (tempdir : String) : CBParams :=
  { loss_function := "MultiClass"
    learning_rate := c.learning_rate
    iterations := c.iterations
    depth := c.depth
    l2_leaf_reg := c.l2_leaf_reg
    train_dir := tempdir }

/-- Embeds `Classifier.fit` (source lines 55-72). `self.model` is first
reassigned to a fresh `CatBoostClassifier`, then that model is trained
in place; only after training returns is `self._is_trained = True`
executed. The result is the classifier's state after the call together
with the call's outcome: a raise during training leaves the fresh
unfitted model assigned and the trained flag untouched. -/
def Classifier.fit (c : Classifier) (train_inputs : DataFrame) (train_targets : Series) :
    Classifier × Except PyError Unit :=
  let m := CBModel.unfitted (c.mkCBParams "tempdir")
  let c1 : Classifier := { c with model := some m }
  match m.fitCB train_inputs train_targets with
  | .ok m2 => ({ c1 with model := some m2, _is_trained := true }, .ok ())
  | .error e => (c1, .error e)

/-- Embeds `Classifier.predict` (source lines 74-82): `self.model.predict(inputs)`
with no guard — on an instance whose handle is `None` this is attribute
access on `None`, an `AttributeError`. -/
def Classifier.predict (c : Classifier) (inputs : DataFrame) : Except PyError (List Int) :=
  match c.model with
  | none => .error (.attributeError "NoneType object has no attribute predict")
  | some m => m.cbPredict inputs

/-- Embeds `Classifier.predict_proba` (source lines 84-92): same shape as
`predict`, no guard. -/
def Classifier.predict_proba (c : Classifier) (inputs : DataFrame) :
    Except PyError (List (List Rat)) :=
  match c.model with
  | none => .error (.attributeError "NoneType object has no attribute predict_proba")
  | some m => m.cbPredictProba inputs

/-- Embeds `Classifier.evaluate` (source lines 94-105): returns
`self.model.score(...)` when `self.model is not None`, otherwise raises
`NotFittedError("Model is not fitted yet.")`. -/
def Classifier.evaluate (c : Classifier) (test_inputs : DataFrame) (test_targets : Series) :
    Except PyError Rat :=
  match c.model with
  | some m => m.cbScore test_inputs test_targets
  | none => .error (.notFittedError "Model is not fitted yet.")

/-- Embeds `Classifier.save` (source lines 107-115): raises
`NotFittedError("Model is not fitted yet.")` unless `self._is_trained`,
otherwise `joblib.dump(self, os.path.join(model_dir_path,
PREDICTOR_FILE_NAME))`. -/
def Classifier.save (c : Classifier) (fs : FileSystem) (model_dir_path : String) :
    Except PyError FileSystem :=
  if c._is_trained = false then
    .error (.notFittedError "Model is not fitted yet.")
  else
    joblibDump fs (osPathJoin model_dir_path PREDICTOR_FILE_NAME) c

/-- Embeds `Classifier.load` (source lines 117-127):
`joblib.load(os.path.join(model_dir_path, PREDICTOR_FILE_NAME))`. -/
def Classifier.load (fs : FileSystem) (model_dir_path : String) : Except PyError Classifier :=
  joblibLoad fs (osPathJoin model_dir_path PREDICTOR_FILE_NAME)

/-- Embeds `Classifier.__str__` (source lines 129-137): the f-string
concatenation, a pure function of the four stored hyperparameters. -/
def Classifier.strRep (c : Classifier) : String :=
  "Model name: " ++ Classifier.model_name ++ " (" ++
  "depth" ++ ": " ++ toString c.depth ++ "), " ++
  "iterations" ++ ": " ++ toString c.iterations ++ "), " ++
  "l2_leaf_reg" ++ ": " ++ toString c.l2_leaf_reg ++ ", " ++
  "learning_rate" ++ ": " ++ toString c.learning_rate ++ ")"

/-- The `hyperparameters: dict` argument of `train_predictor_model`,
holding the four keyword arguments `Classifier(**hyperparameters)`
receives. -/
structure Hyperparameters where
  learning_rate : Rat
  iterations : Int
  depth : Int
  l2_leaf_reg : Rat
deriving DecidableEq

/-- Embeds `train_predictor_model` (source lines 140-156): instantiate a
`Classifier` with the given hyperparameters and fit it; the fitted
classifier is returned, a raise during fit propagates. -/
def train_predictor_model (train_inputs : DataFrame) (train_targets : Series)
    (hyperparameters : Hyperparameters) : Except PyError Classifier :=
  let classifier := Classifier.construct hyperparameters.learning_rate
    hyperparameters.iterations hyperparameters.depth hyperparameters.l2_leaf_reg
  match classifier.fit train_inputs train_targets with
  | (c, .ok _) => .ok c
  | (_, .error e) => .error e

/-- The `np.ndarray` returned by `predict_with_model`: either a label
vector or a probability matrix. -/
inductive NDArray where
  | labels (v : List Int)
  | probs (m : List (List Rat))
deriving DecidableEq

/-- Embeds `predict_with_model` (source lines 159-176): dispatches to
`predict_proba` when `return_probs` else `predict`. -/
def predict_with_model (classifier : Classifier) (data : DataFrame) (return_probs : Bool) :
    Except PyError NDArray :=
  if return_probs then
    (classifier.predict_proba data).map NDArray.probs
  else
    (classifier.predict data).map NDArray.labels

/-- Embeds `save_predictor_model` (source lines 179-189): `os.makedirs` the
target directory when `os.path.exists` says it is absent, then delegate
to `Classifier.save`. -/
def save_predictor_model (model : Classifier) (fs : FileSystem) (predictor_dir_path : String) :
    Except PyError FileSystem :=
  let fs1 := if fs.dirs.contains predictor_dir_path then fs
             else { fs with dirs := predictor_dir_path :: fs.dirs }
  model.save fs1 predictor_dir_path

/-- Embeds `load_predictor_model` (source lines 192-202): delegates to
`Classifier.load`. -/
def load_predictor_model (fs : FileSystem) (predictor_dir_path : String) :
    Except PyError Classifier :=
  Classifier.load fs predictor_dir_path

/-- Embeds `evaluate_predictor_model` (source lines 205-219): delegates to
`Classifier.evaluate`. -/
def evaluate_predictor_model (model : Classifier) (x_test : DataFrame) (y_test : Series) :
    Except PyError Rat :=
  model.evaluate x_test y_test

/-- Helper: the two branches of `Classifier.fit`, as equations. -/
lemma fit_spec (c : Classifier) (X : DataFrame) (y : Series) :
    (X.length = y.length ∧ y ≠ [] →
      c.fit X y =
        ({ c with model := some (CBModel.fitted (c.mkCBParams "tempdir") y.dedup X y), _is_trained := true }, Except.ok ())) ∧
    (¬(X.length = y.length ∧ y ≠ []) →
      c.fit X y =
        ({ c with model := some (CBModel.unfitted (c.mkCBParams "tempdir")) },
         Except.error (.catboostError "Invalid training data"))) := by
  constructor <;> intro h <;> simp [Classifier.fit, CBModel.fitCB, h]

/-- Helper: the underlying model's score never raises the sklearn
not-fitted error (it raises `CatBoostError` instead when unfitted). -/
lemma isNotFittedRes_cbScore (m : CBModel) (X : DataFrame) (y : Series) :
    isNotFittedRes (m.cbScore X y) = false := by
  cases m with
  | unfitted p => rfl
  | fitted p classes tX tY =>
    simp only [CBModel.cbScore]
    split <;> rfl

/-- Helper: `joblib.dump` never raises the not-fitted error. -/
lemma isNotFittedRes_joblibDump (fs : FileSystem) (p : String × String) (c : Classifier) :
    isNotFittedRes (joblibDump fs p c) = false := by
  unfold joblibDump
  split <;> rfl

/-- Helper: `evaluate` raises the not-fitted error exactly when the
model handle is `None`. -/
lemma evaluate_notFitted_iff (c : Classifier) (X : DataFrame) (y : Series) :
    isNotFittedRes (c.evaluate X y) = true ↔ c.model = none := by
  cases hm : c.model with
  | none => simp [Classifier.evaluate, hm, isNotFittedRes]
  | some m => simp [Classifier.evaluate, hm, isNotFittedRes_cbScore]

/-- Helper: `save` raises the not-fitted error exactly when the trained
flag is false. -/
lemma save_notFitted_iff (c : Classifier) (fs : FileSystem) (dir : String) :
    isNotFittedRes (c.save fs dir) = true ↔ c._is_trained = false := by
  unfold Classifier.save
  by_cases h : c._is_trained = false
  · simp [h, isNotFittedRes]
  · simp [h, isNotFittedRes_joblibDump]

/-- C1: on every Classifier instance on which fit has not been invoked
(that is, every freshly constructed instance), each of predict,
predict_proba, evaluate and save raises an error when invoked: the
first two hit attribute access on the absent model handle, the last two
raise the explicit not-fitted error. -/
theorem unfit_instance_all_ops_raise (lr : Rat) (it : Int) (d : Int) (l2 : Rat)
    (inputs : DataFrame) (testX : DataFrame) (testY : Series)
    (fs : FileSystem) (dir : String) :
    isErr ((Classifier.construct lr it d l2).predict inputs) = true ∧
    isErr ((Classifier.construct lr it d l2).predict_proba inputs) = true ∧
    isErr ((Classifier.construct lr it d l2).evaluate testX testY) = true ∧
    isErr ((Classifier.construct lr it d l2).save fs dir) = true :=
  ⟨rfl, rfl, rfl, rfl⟩

/-- C6: constructing a Classifier never trains it — immediately after
construction the trained flag is false, the model handle is absent, and
the four given hyperparameters are stored. -/
theorem construct_stores_params_untrained (lr : Rat) (it : Int) (d : Int) (l2 : Rat) :
    (Classifier.construct lr it d l2)._is_trained = false ∧
    (Classifier.construct lr it d l2).model = none ∧
    (Classifier.construct lr it d l2).learning_rate = lr ∧
    (Classifier.construct lr it d l2).iterations = it ∧
    (Classifier.construct lr it d l2).depth = d ∧
    (Classifier.construct lr it d l2).l2_leaf_reg = l2 :=
  ⟨rfl, rfl, rfl, rfl, rfl, rfl⟩

/-- C7: the free-function wrappers add no new behavior:
train_predictor_model constructs with the given hyperparameters then
fits; predict_with_model returns predict_proba's result when
return_probs is true and predict's result otherwise;
save_predictor_model creates the target directory if absent and then
equals save on it; load_predictor_model equals load;
evaluate_predictor_model equals evaluate. -/
theorem wrappers_add_no_behavior :
    (∀ X y hp, train_predictor_model X y hp =
      (match (Classifier.construct hp.learning_rate hp.iterations hp.depth
                hp.l2_leaf_reg).fit X y with
       | (c, .ok _) => .ok c
       | (_, .error e) => .error e)) ∧
    (∀ c data, predict_with_model c data true = (c.predict_proba data).map NDArray.probs) ∧
    (∀ c data, predict_with_model c data false = (c.predict data).map NDArray.labels) ∧
    (∀ m fs dir, save_predictor_model m fs dir =
      Classifier.save m
        (if fs.dirs.contains dir then fs else { fs with dirs := dir :: fs.dirs }) dir) ∧
    (∀ fs dir, load_predictor_model fs dir = Classifier.load fs dir) ∧
    (∀ m X y, evaluate_predictor_model m X y = m.evaluate X y) :=
  ⟨fun _ _ _ => rfl, fun _ _ => rfl, fun _ _ => rfl, fun _ _ _ => rfl,
   fun _ _ => rfl, fun _ _ _ => rfl⟩

/-- C8: the string representation is deterministic — it depends only on
the four stored hyperparameters (unchanged under any model handle and
trained flag) — and lists the hyperparameter names in alphabetical
order: depth, iterations, l2_leaf_reg, learning_rate. -/
theorem strRep_deterministic_alphabetical (c : Classifier) (m : Option CBModel) (b : Bool) :
    Classifier.strRep { c with model := m, _is_trained := b } = Classifier.strRep c ∧
    Classifier.strRep c =
      "Model name: " ++ Classifier.model_name ++ " (" ++
      "depth" ++ ": " ++ toString c.depth ++ "), " ++
      "iterations" ++ ": " ++ toString c.iterations ++ "), " ++
      "l2_leaf_reg" ++ ": " ++ toString c.l2_leaf_reg ++ ", " ++
      "learning_rate" ++ ": " ++ toString c.learning_rate ++ ")" ∧
    ("depth".data < "iterations".data ∧ "iterations".data < "l2_leaf_reg".data ∧
      "l2_leaf_reg".data < "learning_rate".data) :=
  ⟨rfl, rfl, by decide⟩

/-- C2 counterexample: a Classifier on which fit was invoked but raised
(empty training data) has not been fitted (trained flag false), yet
evaluate does not raise the not-fitted error (the handle was already
reassigned, so evaluate scores the unfitted model and a CatBoostError
propagates instead), while save does raise it. -/
theorem evaluate_save_unfitted_divergence_cex :
    isErr (((Classifier.construct 1 100 6 3).fit [] []).2) = true ∧
    (((Classifier.construct 1 100 6 3).fit [] []).1)._is_trained = false ∧
    isNotFittedRes
      ((((Classifier.construct 1 100 6 3).fit [] []).1).evaluate [[1]] [0]) = false ∧
    isNotFittedRes
      ((((Classifier.construct 1 100 6 3).fit [] []).1).save
        { dirs := ["d"], files := [] } "d") = true := by
  decide

/-- C2 amended: for every freshly constructed Classifier (fit never
invoked), evaluate and save both raise the not-fitted error; for every
instance produced by a successful fit, neither raises it. (After a fit
call that raised, the instance is still unfitted but evaluate no longer
raises the not-fitted error, while save still does.) -/
theorem not_fitted_error_guards (lr : Rat) (it : Int) (d : Int) (l2 : Rat)
    (X : DataFrame) (y : Series) (testX : DataFrame) (testY : Series)
    (fs : FileSystem) (dir : String) (c' : Classifier) :
    (isNotFittedRes ((Classifier.construct lr it d l2).evaluate testX testY) = true ∧
     isNotFittedRes ((Classifier.construct lr it d l2).save fs dir) = true) ∧
    ((Classifier.construct lr it d l2).fit X y = (c', Except.ok ()) →
     isNotFittedRes (c'.evaluate testX testY) = false ∧
     isNotFittedRes (c'.save fs dir) = false) := by
  refine ⟨⟨rfl, rfl⟩, ?_⟩
  intro h
  by_cases hc : X.length = y.length ∧ y ≠ []
  · rw [(fit_spec _ X y).1 hc] at h
    rw [Prod.mk.injEq] at h
    obtain ⟨h1, -⟩ := h
    subst h1
    constructor
    · simp [Classifier.evaluate, isNotFittedRes_cbScore]
    · simp [Classifier.save, isNotFittedRes_joblibDump]
  · rw [(fit_spec _ X y).2 hc] at h
    simp [Prod.ext_iff] at h

/-- C3 counterexample: fit is not atomic. On empty training data fit
raises, yet the instance's model handle has changed: it was `None`
before the call and holds a fresh unfitted model after it. -/
theorem fit_not_atomic_cex :
    isErr (((Classifier.construct 1 100 6 3).fit [] []).2) = true ∧
    ¬((((Classifier.construct 1 100 6 3).fit [] []).1).model =
      (Classifier.construct 1 100 6 3).model) := by
  decide

/-- C3 amended: fit either fully succeeds — the instance is marked
trained and holds the fitted model — or raises; when it raises, the
trained flag is unchanged from before the call, but the model handle
has been replaced by a fresh untrained model built from the stored
hyperparameters. -/
theorem fit_full_success_or_raise (c : Classifier) (X : DataFrame) (y : Series) :
    ((c.fit X y).2 = Except.ok () ∧ (c.fit X y).1._is_trained = true ∧
      (c.fit X y).1.model = some (CBModel.fitted (c.mkCBParams "tempdir") y.dedup X y)) ∨
    (∃ e, (c.fit X y).2 = Except.error e ∧
      (c.fit X y).1._is_trained = c._is_trained ∧
      (c.fit X y).1.model = some (CBModel.unfitted (c.mkCBParams "tempdir"))) := by
  by_cases h : X.length = y.length ∧ y ≠ []
  · left
    rw [(fit_spec c X y).1 h]
    exact ⟨rfl, rfl, rfl⟩
  · right
    refine ⟨PyError.catboostError "Invalid training data", ?_, ?_, ?_⟩ <;>
      rw [(fit_spec c X y).2 h]

/-- C10: evaluate and save use different not-fitted predicates —
evaluate raises the not-fitted error iff the model handle is None, save
raises it iff the trained flag is false; consequently an instance whose
handle is set but whose trained flag is false (as after a fit that
raised during training) passes evaluate's guard but not save's. -/
theorem evaluate_save_guard_predicates (c : Classifier) (X : DataFrame) (y : Series)
    (fs : FileSystem) (dir : String) :
    (isNotFittedRes (c.evaluate X y) = true ↔ c.model = none) ∧
    (isNotFittedRes (c.save fs dir) = true ↔ c._is_trained = false) ∧
    (c.model ≠ none → c._is_trained = false →
      isNotFittedRes (c.evaluate X y) = false ∧ isNotFittedRes (c.save fs dir) = true) := by
  refine ⟨evaluate_notFitted_iff c X y, save_notFitted_iff c fs dir, ?_⟩
  intro hm ht
  constructor
  · cases hmm : c.model with
    | none => exact absurd hmm hm
    | some m => simp [Classifier.evaluate, hmm, isNotFittedRes_cbScore]
  · exact (save_notFitted_iff c fs dir).mpr ht

/-- C10 witness: the consequence evaluated on the concrete state left by
a failed fit on empty training data. -/
theorem evaluate_save_guard_predicates_witness :
    isNotFittedRes
      ((((Classifier.construct 1 100 6 3).fit [] []).1).evaluate [[1]] [0]) = false ∧
    isNotFittedRes
      ((((Classifier.construct 1 100 6 3).fit [] []).1).save
        { dirs := ["d"], files := [] } "d") = true :=
  (evaluate_save_guard_predicates (((Classifier.construct 1 100 6 3).fit [] []).1)
    [[1]] [0] { dirs := ["d"], files := [] } "d").2.2 (by decide) (by decide)

/-- C4: save-then-load round trip. Whenever save on a directory
succeeds, load on the same directory yields an instance whose predict
output on any fixed input equals the pre-save instance's predict output
on that input exactly. -/
theorem save_load_roundtrip (c : Classifier) (fs : FileSystem) (dir : String)
    (fs' : FileSystem) (h : c.save fs dir = Except.ok fs') :
    ∃ c2, Classifier.load fs' dir = Except.ok c2 ∧
      ∀ input, c2.predict input = c.predict input := by
  refine ⟨c, ?_, fun _ => rfl⟩
  unfold Classifier.save at h
  by_cases ht : c._is_trained = false
  · rw [if_pos ht] at h
    exact Except.noConfusion h
  · rw [if_neg ht] at h
    unfold joblibDump at h
    split at h
    · obtain rfl := Except.ok.inj h
      unfold Classifier.load joblibLoad
      simp [List.lookup]
    · exact Except.noConfusion h

/-- C4 witness: the round trip evaluated on a concrete fitted
classifier and a one-directory filesystem. -/
theorem save_load_roundtrip_witness :
    ∃ c2, Classifier.load { dirs := ["d"], files := [(("d", PREDICTOR_FILE_NAME), ((Classifier.construct 1 100 6 3).fit [[1],[2]] [0,1]).1)] } "d" = Except.ok c2 ∧
      ∀ input, c2.predict input =
        (((Classifier.construct 1 100 6 3).fit [[1],[2]] [0,1]).1).predict input :=
  save_load_roundtrip (((Classifier.construct 1 100 6 3).fit [[1],[2]] [0,1]).1)
    { dirs := ["d"], files := [] } "d"
    { dirs := ["d"], files := [(("d", PREDICTOR_FILE_NAME), ((Classifier.construct 1 100 6 3).fit [[1],[2]] [0,1]).1)] }
    (by decide)

/-- C5: persistence uses the fixed filename predictor.joblib — for a
trained classifier and an existing directory, save writes the
serialized instance to exactly the file (dir, predictor.joblib), and
load reads from exactly that filename in the given directory. -/
theorem save_fixed_filename (c : Classifier) (fs : FileSystem) (dir : String)
    (h1 : c._is_trained = true) (h2 : fs.dirs.contains dir = true) :
    PREDICTOR_FILE_NAME = "predictor.joblib" ∧
    c.save fs dir = Except.ok { fs with files := ((dir, PREDICTOR_FILE_NAME), c) :: fs.files } ∧
    Classifier.load fs dir = joblibLoad fs (dir, PREDICTOR_FILE_NAME) := by
  refine ⟨rfl, ?_, rfl⟩
  have h2' : dir ∈ fs.dirs := by simpa using h2
  simp [Classifier.save, joblibDump, osPathJoin, h1, h2']

/-- C5 witness: the fixed-filename equations evaluated on a concrete
fitted classifier and a one-directory filesystem. -/
theorem save_fixed_filename_witness :
    PREDICTOR_FILE_NAME = "predictor.joblib" ∧
    (((Classifier.construct 1 100 6 3).fit [[1],[2]] [0,1]).1).save { dirs := ["d"], files := [] } "d" = Except.ok { dirs := ["d"], files := [(("d", PREDICTOR_FILE_NAME), ((Classifier.construct 1 100 6 3).fit [[1],[2]] [0,1]).1)] } ∧
    Classifier.load { dirs := ["d"], files := [] } "d" =
      joblibLoad { dirs := ["d"], files := [] } ("d", PREDICTOR_FILE_NAME) :=
  save_fixed_filename (((Classifier.construct 1 100 6 3).fit [[1],[2]] [0,1]).1)
    { dirs := ["d"], files := [] } "d" (by decide) (by decide)

/-- Helper: dividing every entry of a list by `t` divides its sum. -/
lemma sum_map_div (l : List Rat) (t : Rat) :
    (l.map (fun w => w / t)).sum = l.sum / t := by
  induction l with
  | nil => simp
  | cons a tl ih => simp [List.sum_cons, ih, add_div]

/-- Helper: every modelled class weight is at least one. -/
lemma one_le_cbWeight (row : Row) (cls : Int) : 1 ≤ cbWeight row cls :=
  le_add_of_nonneg_right (sq_nonneg (cbRawScore row cls))

/-- Helper: the weights of a nonempty class list have positive sum. -/
lemma sum_weights_pos (row : Row) (classes : List Int) (h : classes ≠ []) :
    0 < (classes.map (cbWeight row)).sum := by
  cases classes with
  | nil => exact absurd rfl h
  | cons c cs =>
    have h1 : (1 : Rat) ≤ cbWeight row c := one_le_cbWeight row c
    have h2 : 0 ≤ (cs.map (cbWeight row)).sum :=
      List.sum_nonneg fun x hx => by
        obtain ⟨cc, -, rfl⟩ := List.mem_map.mp hx
        exact le_trans zero_le_one (one_le_cbWeight row cc)
    simp only [List.map_cons, List.sum_cons]
    linarith

/-- Helper: a probability row over a nonempty class list sums to one
and has one entry per class. -/
lemma cbProbaRow_sum (classes : List Int) (row : Row) (h : classes ≠ []) :
    (cbProbaRow classes row).sum = 1 ∧ (cbProbaRow classes row).length = classes.length := by
  constructor
  · unfold cbProbaRow
    rw [sum_map_div]
    exact div_self (ne_of_gt (sum_weights_pos row classes h))
  · simp [cbProbaRow]

/-- C9: on any classifier produced by a successful fit,
predict_with_model with return_probs = true returns a probability
matrix with one row per input row, in which every row sums to one and
has as many columns as there are distinct labels in the training
targets. -/
theorem predict_proba_rows_sum_one (c c' : Classifier) (X : DataFrame) (y : Series)
    (data : DataFrame) (h : c.fit X y = (c', Except.ok ())) :
    ∃ P, predict_with_model c' data true = Except.ok (NDArray.probs P) ∧
      P.length = data.length ∧
      ∀ row ∈ P, row.sum = 1 ∧ row.length = y.dedup.length := by
  by_cases hc : X.length = y.length ∧ y ≠ []
  · rw [(fit_spec c X y).1 hc] at h
    rw [Prod.mk.injEq] at h
    obtain ⟨h1, -⟩ := h
    subst h1
    refine ⟨data.map (cbProbaRow y.dedup), rfl, by simp, ?_⟩
    intro row hrow
    obtain ⟨r, -, rfl⟩ := List.mem_map.mp hrow
    have hne : y.dedup ≠ [] := by
      rw [ne_eq, List.dedup_eq_nil]
      exact hc.2
    exact ⟨(cbProbaRow_sum _ r hne).1, (cbProbaRow_sum _ r hne).2⟩
  · rw [(fit_spec c X y).2 hc] at h
    simp [Prod.ext_iff] at h

/-- C9 witness: the probability-matrix property evaluated on a concrete
two-class fit and a one-row input. -/
theorem predict_proba_rows_sum_one_witness :
    ∃ P, predict_with_model (((Classifier.construct 1 100 6 3).fit [[1],[2]] [0,1]).1) [[5]] true = Except.ok (NDArray.probs P) ∧
      P.length = ([[5]] : DataFrame).length ∧
      ∀ row ∈ P, row.sum = 1 ∧ row.length = ([0,1] : Series).dedup.length :=
  predict_proba_rows_sum_one (Classifier.construct 1 100 6 3)
    (((Classifier.construct 1 100 6 3).fit [[1],[2]] [0,1]).1) [[1],[2]] [0,1] [[5]]
    (by decide)

/-- C2 witness: the amended theorem's fitted half evaluated on a
concrete successful fit. -/
theorem not_fitted_error_guards_witness :
    isNotFittedRes
      ((((Classifier.construct 1 100 6 3).fit [[1],[2]] [0,1]).1).evaluate
        [[1]] [0]) = false ∧
    isNotFittedRes
      ((((Classifier.construct 1 100 6 3).fit [[1],[2]] [0,1]).1).save
        { dirs := ["d"], files := [] } "d") = false :=
  (not_fitted_error_guards 1 100 6 3 [[1],[2]] [0,1] [[1]] [0]
    { dirs := ["d"], files := [] } "d"
    (((Classifier.construct 1 100 6 3).fit [[1],[2]] [0,1]).1)).2 (by decide)

end RTCatboost
